import Mathlib

/-!
Verification development for the `clauchat` streaming chat client.

The definitions below are a shallow embedding of the Rust sources:
  * `src/api.rs`   — wire-level stream events and `send_message_streaming`'s
                     line-to-delta pipeline (`event_stream`);
  * `src/app.rs`   — the spawned aggregator task, `handle_stream_response`,
                     `send_message`, and the app-state fragment they touch;
  * `src/price.rs` — the pricing-table fetch/parse helpers.

Modelling conventions:
  * Rust `String`/`&str` line buffers that are inspected bytewise are
    modelled as `List Char`; message contents stay `String`.
  * `u32`/`usize` are modelled as `Nat` (no arithmetic in the modelled code
    can overflow at the values involved; `usize::MAX` is `2^64 - 1`,
    a 64-bit target).
  * `f64` values (costs, token-limit scaling) are modelled as exact `ℚ`;
    every concrete computation a theorem evaluates involves only values
    that `f64` represents exactly.
  * fallible Rust code returns `Except`/`Option`; a Rust panic
    (`unwrap`/`expect`) is an `Option.none` or a dedicated constructor.
  * `serde_json::from_str::<StreamEvent>` is an external library call; the
    pipeline only branches on its result, so it is passed in as an explicit
    `parse : List Char → Except String StreamEvent` argument.
-/

namespace ClauChat

/-- Roles for messages in the conversation (api.rs `Role`). -/
inductive Role where
  | user
  | assistant
  | system
deriving DecidableEq, Repr

/-- A role's message (api.rs `Message`). -/
structure Message where
  role : Role
  content : String
deriving DecidableEq, Repr

/-- api.rs `ResponseUsage` (`u32` fields as `Nat`). -/
structure ResponseUsage where
  input_tokens : Nat
  output_tokens : Nat
deriving DecidableEq, Repr

/-- api.rs `Delta` (a single wire text increment). -/
structure Delta where
  delta_type : String
  text : String
deriving DecidableEq, Repr

/-- api.rs `ContentBlock`. -/
structure ContentBlock where
  content_type : String
  text : String
deriving DecidableEq, Repr

/-- api.rs `StreamMessage`. -/
structure StreamMessage where
  id : String
  message_type : String
  role : String
  content : List ContentBlock
  usage : Option ResponseUsage
deriving DecidableEq, Repr

/-- api.rs `MessageDelta` (the struct carried by the `message_delta` event). -/
structure MessageDelta where
  stop_reason : Option String
  stop_sequence : Option String
deriving DecidableEq, Repr

/-- api.rs `StreamError`. -/
structure StreamError where
  message : String
deriving DecidableEq, Repr

/-- api.rs `StreamEvent`: the tagged union decoded from a `data:` payload. -/
inductive StreamEvent where
  | messageStart (message : StreamMessage)
  | contentBlockStart (index : Nat) (content_block : ContentBlock)
  | contentBlockDelta (index : Nat) (delta : Delta)
  | contentBlockStop (index : Nat)
  | messageDelta (delta : MessageDelta) (usage : Option ResponseUsage)
  | messageStop
  | ping
  | error (error : StreamError)
deriving DecidableEq, Repr

/-- api.rs `StreamingBuffer` (lines 110–113): the item type of the stream
returned by `send_message_streaming`.  Note: no `usage` field. -/
structure StreamingBuffer where
  content : String
  is_complete : Bool
deriving DecidableEq, Repr

instance {ε α : Type} [DecidableEq ε] [DecidableEq α] : DecidableEq (Except ε α)
  | .ok a, .ok b =>
    if h : a = b then .isTrue (by rw [h]) else .isFalse (by intro hc; cases hc; exact h rfl)
  | .error a, .error b =>
    if h : a = b then .isTrue (by rw [h]) else .isFalse (by intro hc; cases hc; exact h rfl)
  | .ok _, .error _ => .isFalse (by intro hc; cases hc)
  | .error _, .ok _ => .isFalse (by intro hc; cases hc)

/-- The characters of `"data: "` (the SSE data-line marker). -/
def dataPre : List Char := "data: ".toList

/-- The characters of `"event: "` (the SSE event-line marker). -/
def evPre : List Char := "event: ".toList

/-- Rust `str::strip_prefix` on character lists: `some rest` when the first
argument is a leading segment of the second (this also decides
`starts_with`, which the Rust code checks immediately before stripping). -/
def stripPre : List Char → List Char → Option (List Char)
  | [], s => some s
  | _ :: _, [] => none
  | p :: ps, c :: cs => if p = c then stripPre ps cs else none

/-- One step of the `filter_map` in `send_message_streaming`
(api.rs lines 300–341): a line read from the SSE body is turned into
`none` (skipped), a text-increment buffer, a completion buffer, or an
error.  `parse` stands for `serde_json::from_str::<StreamEvent>`. -/
def processLine (parse : List Char → Except String StreamEvent) :
    Except String (List Char) → Option (Except String StreamingBuffer)
  | .error e => some (.error ("Error reading stream line " ++ e))
  | .ok line =>
    if line.isEmpty then none
    else if (stripPre evPre line).isSome then none
    else
      match stripPre dataPre line with
      | some data =>
        match parse data with
        | .ok (.contentBlockDelta _ delta) =>
          if delta.delta_type = "text_delta" then
            some (.ok { content := delta.text, is_complete := false })
          else none
        | .ok .messageStop =>
          some (.ok { content := "", is_complete := true })
        | _ => none
      | none => none

/-- The `event_stream` of api.rs lines 300–341: `lines_stream.filter_map`. -/
def eventStream (parse : List Char → Except String StreamEvent)
    (lines : List (Except String (List Char))) :
    List (Except String StreamingBuffer) :=
  lines.filterMap (processLine parse)

/-- app.rs line 19: `STREAM_ERROR_TOKEN = "Err\u{274}r:"`. -/
def STREAM_ERROR_TOKEN : String := "Errɴr:"

/-- Modelled from the spec: `AppMessageDelta`, the channel item type.
app.rs imports it from `crate::api`, but the api.rs under src/ does not
define it (stale revision).  Spec §3 `StreamingDelta`:
`{content: text (cumulative), is_complete: bool, usage: optional}`;
`AppMessageDelta::default()` is the empty content, not complete, no usage. -/
structure AppMessageDelta where
  content : String
  is_complete : Bool
  usage : Option ResponseUsage
deriving DecidableEq, Repr

instance : Inhabited AppMessageDelta := ⟨{ content := "", is_complete := false, usage := none }⟩

/-- Modelled from the spec: the stream-item type the spawned task in app.rs
(lines 315–346) consumes.  The task reads `buffer.usage`, but src's
`StreamingBuffer` has no `usage` field (stale api.rs revision; cf.
`AppMessageDelta`).  Following spec §3, the item is `StreamingBuffer`
extended with `usage : Option ResponseUsage`. -/
structure StreamChunk where
  content : String
  is_complete : Bool
  usage : Option ResponseUsage
deriving DecidableEq, Repr

/-- Embeds a src-api.rs `StreamingBuffer` into the task's item type.  The
src `event_stream` never produces a usage value, so the composition carries
`usage := none`. -/
def liftBuffer (b : StreamingBuffer) : StreamChunk :=
  { content := b.content, is_complete := b.is_complete, usage := none }

/-- The `while let` loop of the spawned task (app.rs lines 320–338):
`acc` is the running `content_delta`; each `Ok` chunk appends its content,
overwrites `is_complete`/`usage`, and a clone is pushed; the loop breaks
after pushing a complete delta; an `Err` chunk overwrites the content with
the sentinel-prefixed error text, marks complete, pushes once and breaks. -/
def taskLoop (acc : AppMessageDelta) :
    List (Except String StreamChunk) → List AppMessageDelta
  | [] => []
  | .ok buffer :: rest =>
    let acc' : AppMessageDelta :=
      { content := acc.content ++ buffer.content
        is_complete := buffer.is_complete
        usage := buffer.usage }
    if acc'.is_complete then [acc'] else acc' :: taskLoop acc' rest
  | .error e :: _ =>
    [{ content := STREAM_ERROR_TOKEN ++ " " ++ e, is_complete := true
       usage := acc.usage }]

/-- The whole spawned task of `send_message` (app.rs lines 315–346).  Its
input is the result of `client.send_message_streaming(messages)`:
either the stream's chunk sequence or a request-level error.  The output
list is the sequence of deltas pushed onto the channel, in order. -/
def spawnedTask :
    Except String (List (Except String StreamChunk)) → List AppMessageDelta
  | .ok chunks => taskLoop default chunks
  | .error e =>
    [{ content := STREAM_ERROR_TOKEN ++ " " ++ e, is_complete := true
       usage := none }]

/-- End-to-end streaming pipeline: the SSE lines through api.rs's
`event_stream`, lifted to the task's chunk type, through the spawned task.
The delta list is what `send_message`'s background task pushes onto the
channel for the UI. -/
def pipeline (parse : List Char → Except String StreamEvent)
    (lines : List (Except String (List Char))) : List AppMessageDelta :=
  spawnedTask (.ok ((eventStream parse lines).map (·.map liftBuffer)))

/-- A concrete stand-in for `serde_json::from_str::<StreamEvent>`, used
only to instantiate theorems at concrete inputs: `"stop"` decodes to
`MessageStop`, `"ping"` to `Ping`, `"mdusage"` to a `MessageDelta` event
carrying usage 10/20, `"txt:<t>"` to a text `ContentBlockDelta`, anything
else fails to parse. -/
def demoParse (s : List Char) : Except String StreamEvent :=
  if s = "stop".toList then .ok .messageStop
  else if s = "ping".toList then .ok .ping
  else if s = "mdusage".toList then
    .ok (.messageDelta { stop_reason := some "end_turn", stop_sequence := none }
          (some { input_tokens := 10, output_tokens := 20 }))
  else
    match stripPre "txt:".toList s with
    | some t => .ok (.contentBlockDelta 0 { delta_type := "text_delta", text := String.mk t })
    | none => .error "unknown event"

/-- The nonempty running prefix concatenations of a list of text
increments, continuing from an already-accumulated string. -/
def runPre (acc : String) : List String → List String
  | [] => []
  | t :: ts => (acc ++ t) :: runPre (acc ++ t) ts

/-- Number of terminal (`is_complete = true`) deltas in a pushed sequence. -/
def countComplete (out : List AppMessageDelta) : Nat :=
  (out.filter (·.is_complete)).length

/-! ## price.rs: pricing table fetching and parsing -/

/-- Rust `str::to_lowercase` (ASCII-faithful; the pricing table and the
claims' inputs are ASCII). -/
def lowerStr (s : String) : String := String.mk (s.toList.map Char.toLower)

/-- `starts_with` for Rust strings, via `stripPre`. -/
def startsWithStr (p s : String) : Bool := (stripPre p.toList s.toList).isSome

/-- Rust `str::trim` on the underlying characters (leading and trailing
whitespace removed). -/
def trimChars (s : List Char) : List Char :=
  ((s.dropWhile Char.isWhitespace).reverse.dropWhile Char.isWhitespace).reverse

/-- Rust `str::trim`. -/
def trimStr (s : String) : String := String.mk (trimChars s.toList)

/-- Splitting on a single separator character, with Rust
`str::split(char)` semantics (empty input gives one empty piece, a
trailing separator a trailing empty piece). -/
def splitOnChar (c : Char) : List Char → List (List Char)
  | [] => [[]]
  | x :: xs =>
    let r := splitOnChar c xs
    if x = c then [] :: r
    else
      match r with
      | [] => [[x]]
      | h :: t => (x :: h) :: t

/-- Rust `str::trim_end_matches(c)`: drop every trailing occurrence of `c`. -/
def dropTrailing (c : Char) (s : List Char) : List Char :=
  (s.reverse.dropWhile (· = c)).reverse

/-- Rust `str::replace(',', "")`. -/
def stripCommas (s : List Char) : List Char := s.filter (· ≠ ',')

/-- Numeric value of a digit string. -/
def natOfDigits (l : List Char) : Nat :=
  l.foldl (fun n c => n * 10 + (c.toNat - '0'.toNat)) 0

/-- Decimal part: digits and at most one `'.'`, at least one digit
somewhere.  Models Rust `f64::from_str` on the plain decimal literals the
pricing table contains (exact in `ℚ`; exponent/`inf`/`nan` literal forms
are not modelled — the callers never feed them). -/
def parseDec (s : List Char) : Option ℚ :=
  if s.all (fun c => c.isDigit || c = '.') then
    match splitOnChar '.' s with
    | [a] => if a.isEmpty then none else some (natOfDigits a)
    | [a, b] =>
      if a.isEmpty && b.isEmpty then none
      else some ((natOfDigits a : ℚ) + (natOfDigits b : ℚ) / (10 : ℚ) ^ b.length)
    | _ => none
  else none

/-- Rust `str::parse::<f64>` on an optional sign followed by a plain
decimal literal. -/
def parseF64 (s : List Char) : Option ℚ :=
  match s with
  | '-' :: rest => (parseDec rest).map (fun q => -q)
  | '+' :: rest => parseDec rest
  | _ => parseDec s

/-- `usize::MAX` on the 64-bit targets the crate builds for. -/
def USIZE_MAX : Nat := 2 ^ 64 - 1

/-- Rust `expr as usize` on an `f64` (saturating cast, truncation toward
zero; the modelled values are never `NaN`). -/
def f64_as_usize (q : ℚ) : Nat :=
  if q < 0 then 0 else min ⌊q⌋.toNat USIZE_MAX

/-- Rust `str::parse::<usize>`: optional `'+'`, then digits; fails on
overflow past `usize::MAX`. -/
def parseUsize (s : List Char) : Option Nat :=
  let body := match s with | '+' :: rest => rest | _ => s
  if body.isEmpty then none
  else if body.all Char.isDigit then
    let v := natOfDigits body
    if v ≤ USIZE_MAX then some v else none
  else none

/-- price.rs `parse_token_limit` (lines 146–188): lowercase and trim; the
sentinel spellings map to `usize::MAX`; a `k`/`m` suffix is stripped
(every trailing occurrence), commas removed, the base parsed as `f64` and
scaled by 1e3/1e6 then cast to `usize`; otherwise commas removed and the
string parsed as `usize`.  `none` is the `Err` of the Rust `Result`. -/
def parse_token_limit (limit_str : String) : Option Nat :=
  let l := lowerStr (trimStr limit_str)
  if l = "nan" || l = "n/a" || l = "unlimited" || l = "--" || l = "-" || l = "" then
    some USIZE_MAX
  else
    let cs := l.toList
    if cs.getLast? = some 'k' then
      (parseF64 (stripCommas (dropTrailing 'k' cs))).map (fun q => f64_as_usize (q * 1000))
    else if cs.getLast? = some 'm' then
      (parseF64 (stripCommas (dropTrailing 'm' cs))).map (fun q => f64_as_usize (q * 1000000))
    else
      parseUsize (stripCommas cs)

/-- price.rs `parse_cost` (lines 125–143): strip `'$'` and every character
that is not a digit or `'.'`; the sentinel spellings (matched against the
*original* string) yield `-1.0`; otherwise parse the cleaned string as
`f64`. -/
def parse_cost (cost_str : String) : Option ℚ :=
  let cleaned := (cost_str.toList.filter (fun c => c ≠ '$')).filter (fun c => c.isDigit || c = '.')
  if cost_str = "nan" || cost_str = "n/a" || cost_str = "unlimited" ||
      cost_str = "--" || cost_str = "-" || cost_str = "" then
    some (-1)
  else parseF64 cleaned

/-- price.rs `ModelPricing` (f64 costs as exact `ℚ`, `usize` as `Nat`). -/
structure ModelPricing where
  model_name : String
  input_cost_per_million : ℚ
  output_cost_per_million : ℚ
  max_prompt_tokens : Nat
  max_output_tokens : Nat
deriving DecidableEq, Repr

/-- `HashMap<String, ModelPricing>` modelled as an association list;
`insert` replaces any previous binding of the key. -/
def insertPricing (m : List (String × ModelPricing)) (k : String) (v : ModelPricing) :
    List (String × ModelPricing) :=
  (m.filter (fun p => p.1 ≠ k)) ++ [(k, v)]

/-- `HashMap::get`. -/
def lookupPricing (m : List (String × ModelPricing)) (k : String) : Option ModelPricing :=
  (m.find? (fun p => p.1 = k)).map (·.2)

/-- Rust `str::lines()`: split on `'\n'`, no trailing empty piece, and a
trailing `'\r'` of each piece is dropped. -/
def rustLines (s : String) : List String :=
  let ps := splitOnChar '\n' s.toList
  let ps := if ps.getLast? = some [] then ps.dropLast else ps
  ps.map (fun cs =>
    String.mk (if cs.getLast? = some '\r' then cs.dropLast else cs))

/-- Rust `str::contains(&str)`: substring occurrence. -/
def listHasInfix (n : List Char) : List Char → Bool
  | [] => (stripPre n []).isSome
  | c :: hs => (stripPre n (c :: hs)).isSome || listHasInfix n hs

/-- The header scan of `parse_pricing_table` (price.rs lines 53–60): find
the first line starting with `"| Model Name"`, skip the separator line,
return the remaining lines; `none` when the header is never found. -/
def findTableRows : List String → Option (List String)
  | [] => none
  | l :: rest =>
    if startsWithStr "| Model Name" l then some (rest.drop 1) else findTableRows rest

/-- The row loop of `parse_pricing_table` (price.rs lines 69–113): a line
not containing the filter model name is skipped (note: this check runs
*before* the `'|'` table-end check, as in the source); a line not starting
with `'|'` ends the table; otherwise the line is split on `'|'`, the cells
trimmed and empties dropped, and with at least 5 columns a `ModelPricing`
is built — a failing cell parse aborts with an error (the source's
per-cell `context` messages are collapsed into one text). -/
def processRows (mn : Option String) (models : List (String × ModelPricing)) :
    List String → Except String (List (String × ModelPricing))
  | [] => .ok models
  | line :: rest =>
    let skip := match mn with
      | some m => !listHasInfix m.toList line.toList
      | none => false
    if skip then processRows mn models rest
    else if !startsWithStr "|" line then .ok models
    else
      let columns := ((splitOnChar '|' line.toList).map trimChars).filter (fun s => !s.isEmpty)
      let cell : Nat → String := fun i => String.mk (columns.getD i [])
      if columns.length ≥ 5 then
        let mname := String.mk (trimChars (columns.getD 0 []))
        match parse_cost (cell 1), parse_cost (cell 2),
            parse_token_limit (cell 3), parse_token_limit (cell 4) with
        | some ic, some oc, some mpt, some mot =>
          processRows mn
            (insertPricing models mname
              { model_name := mname, input_cost_per_million := ic
                output_cost_per_million := oc, max_prompt_tokens := mpt
                max_output_tokens := mot }) rest
        | _, _, _, _ => .error "Failed to parse a pricing table cell"
      else processRows mn models rest

/-- price.rs `parse_pricing_table` (lines 44–122). -/
def parse_pricing_table (markdown : String) (mn : Option String) :
    Except String (List (String × ModelPricing)) :=
  match findTableRows (rustLines markdown) with
  | none => .error "Could not find the pricing table header in the markdown"
  | some rows =>
    match processRows mn [] rows with
    | .error e => .error e
    | .ok models =>
      if models.isEmpty then .error "No model pricing information found in the table"
      else .ok models

/-- The network outcomes `fetch_model_pricing` can observe: the initial
`reqwest::get` fails, reading the body text fails, or a body arrives. -/
inductive NetResult where
  | connectErr (e : String)
  | bodyErr (e : String)
  | body (text : String)
deriving DecidableEq, Repr

/-- Result of `fetch_model_pricing`: either the function panics (the
`.unwrap()` on `parse_pricing_table`'s result, price.rs line 39) or it
returns its `Result`. -/
inductive FetchRes where
  | panics (msg : String)
  | ret (r : Except String (Option (List (String × ModelPricing))))
deriving DecidableEq, Repr

/-- price.rs `fetch_model_pricing` (lines 17–41): a failed GET returns
`Ok(None)`; a body-read failure propagates as `Err` (the `context(..)?`);
a received body is parsed, with a parse failure panicking via `unwrap`. -/
def fetch_model_pricing (net : NetResult) (model_name : Option String) : FetchRes :=
  match net with
  | .connectErr _ => .ret (.ok none)
  | .bodyErr _ => .ret (.error "Failed to extract text from response")
  | .body md =>
    match parse_pricing_table md model_name with
    | .ok m => .ret (.ok (some m))
    | .error e => .panics e

/-- app.rs line 75: the fixed model identifier. -/
def MODEL : String := "claude-3-7-sonnet-20250219"

/-- The pricing part of `ClauChatApp::new` (app.rs lines 76–78):
`fetch_model_pricing(Some(MODEL)).await` followed by `.unwrap()`.
`none` means startup aborts (a panic either inside the fetch or at the
`unwrap`); `some pd` means the app starts with `pricing_data = pd`. -/
def appStartupPricing (net : NetResult) :
    Option (Option (List (String × ModelPricing))) :=
  match fetch_model_pricing net (some MODEL) with
  | .panics _ => none
  | .ret (.error _) => none
  | .ret (.ok pd) => some pd

/-! ## app.rs: application state, send_message, handle_stream_response -/

/-- The fragment of `ClauChatApp` state the verified operations read or
write.  `hasClient` models `client.is_some()`; `total_cost` is
`ui_state.total_cost` (f64 as exact `ℚ`).  The channel handles
(`stream_receiver` etc.) carry no data-relevant state and are represented
by the spawn output of `send_message` instead. -/
structure AppState where
  input : String
  messages : List Message
  is_sending : Bool
  error : Option String
  hasClient : Bool
  model : String
  pricing_data : Option (List (String × ModelPricing))
  total_cost : ℚ
deriving DecidableEq, Repr

/-- app.rs `usage_as_cost` (lines 180–185).  The source unwraps
`pricing_data` and the model lookup; `none` models that panic. -/
def usage_as_cost (s : AppState) (u : ResponseUsage) : Option ℚ :=
  match s.pricing_data with
  | none => none
  | some pd =>
    match lookupPricing pd s.model with
    | none => none
    | some mp =>
      some (mp.input_cost_per_million * (u.input_tokens : ℚ) / 1000000
        + mp.output_cost_per_million * (u.output_tokens : ℚ) / 1000000)

/-- app.rs `handle_stream_response` (lines 187–210): a sentinel-prefixed
delta stores its content in `error`; otherwise, when the last message is
an assistant message, its content is *replaced* by the delta's cumulative
content; any delivered usage is added to the running total cost (the
source unwraps `usage_as_cost`, so a missing pricing entry panics —
modelled as `none`); finally `is_complete` clears `is_sending`. -/
def handle_stream_response (s : AppState) (d : AppMessageDelta) : Option AppState :=
  let addUsage : AppState → Option AppState := fun st =>
    match d.usage with
    | some u => (usage_as_cost s u).map (fun c => { st with total_cost := st.total_cost + c })
    | none => some st
  let branch : Option AppState :=
    if startsWithStr STREAM_ERROR_TOKEN d.content then
      addUsage { s with error := some d.content }
    else
      match s.messages.getLast? with
      | some lastMsg =>
        if lastMsg.role = .assistant then
          addUsage { s with
            messages := s.messages.dropLast ++ [{ lastMsg with content := d.content }] }
        else some s
      | none => some s
  branch.map (fun st => if d.is_complete then { st with is_sending := false } else st)

/-- app.rs `send_message` (lines 257–364).  `goodKey` is the outcome of
the blocking `is_api_key_valid` pre-flight (`false` also covers a failed
validation request, which `unwrap_or_else` maps to `false`).  Returns the
new state and, when a background task is spawned, the message list handed
to `send_message_streaming` (the history including the new user message
but not the empty assistant placeholder). -/
def send_message (goodKey : Bool) (s : AppState) : AppState × Option (List Message) :=
  if (trimStr s.input).isEmpty || s.is_sending then (s, none)
  else if !s.hasClient then
    ({ s with error := some "API key not configured. Please add it in settings." }, none)
  else if !goodKey then
    ({ s with hasClient := false, error := some "Bad API key, request process canceled" }, none)
  else
    let afterUser := s.messages ++ [{ role := Role.user, content := s.input }]
    ({ s with
        messages := afterUser ++ [{ role := Role.assistant, content := "" }]
        error := none, input := "", is_sending := true },
      some afterUser)

/-- A chunk that makes the task's `while let` loop emit a terminal delta
and break: a line-read error, or a buffer with `is_complete`
(produced exactly by `MessageStop`). -/
def isTerminalChunk : Except String StreamChunk → Bool
  | .error _ => true
  | .ok b => b.is_complete

/-- The streaming outcomes the task terminates on: a request-level error,
or a chunk sequence containing a terminal chunk. -/
def terminatesB : Except String (List (Except String StreamChunk)) → Bool
  | .error _ => true
  | .ok chunks => chunks.any isTerminalChunk

/-- An `Ok` chunk that keeps the task loop running (not complete). -/
def okIncomplete : Except String StreamChunk → Bool
  | .ok b => !b.is_complete
  | .error _ => false

/-- A concrete application state used to instantiate theorems: one
assistant message `"x"`, a send in flight, no pricing data. -/
def demoState : AppState :=
  { input := "hi", messages := [{ role := Role.assistant, content := "x" }]
    is_sending := true, error := none, hasClient := true
    model := MODEL, pricing_data := none, total_cost := 0 }

example : parse_token_limit "unlimited" = some USIZE_MAX := by decide

example : parse_token_limit "200k" = some 200000 := by
  have h : parse_token_limit "200k" = some (f64_as_usize (((200 : Nat) : ℚ) * 1000)) := rfl
  have h2 : ((200 : Nat) : ℚ) * 1000 = ((200000 : Nat) : ℚ) := by norm_num
  rw [h, h2]
  simp [f64_as_usize, USIZE_MAX, Int.floor_natCast]

example : parse_cost "$15.00" = some 15 := by
  have h : parse_cost "$15.00" =
      some (((15 : Nat) : ℚ) + ((0 : Nat) : ℚ) / (10 : ℚ) ^ 2) := rfl
  rw [h]
  norm_num

example : eventStream demoParse [.ok (dataPre ++ "txt:Hel".toList), .ok (dataPre ++ "stop".toList)]
    = [.ok { content := "Hel", is_complete := false }, .ok { content := "", is_complete := true }] := by
  decide

example : pipeline demoParse
    [.ok (dataPre ++ "txt:Hel".toList), .ok (dataPre ++ "txt:lo".toList),
     .ok (dataPre ++ "txt: world".toList), .ok (dataPre ++ "stop".toList)]
    = [⟨"Hel", false, none⟩, ⟨"Hello", false, none⟩, ⟨"Hello world", false, none⟩,
       ⟨"Hello world", true, none⟩] := by decide

/-! ## Helper lemmas -/

theorem str_append_empty (s : String) : s ++ "" = s := by
  cases s with
  | mk l => show String.mk (l ++ []) = String.mk l; rw [List.append_nil]

theorem stripPre_self_append (p : List Char) : ∀ s, stripPre p (p ++ s) = some s := by
  induction p with
  | nil => intro s; rfl
  | cons c cs ih => intro s; simp [stripPre, ih]

/-- Evaluating `processLine` on a well-formed `data:` line reduces to the
`match` on the parse result. -/
theorem processLine_data (parse : List Char → Except String StreamEvent) (d : List Char) :
    processLine parse (.ok (dataPre ++ d))
      = match parse d with
        | .ok (.contentBlockDelta _ delta) =>
          if delta.delta_type = "text_delta" then
            some (.ok { content := delta.text, is_complete := false })
          else none
        | .ok .messageStop => some (.ok { content := "", is_complete := true })
        | _ => none := by
  have h1 : (dataPre ++ d).isEmpty = false := rfl
  have h2 : stripPre evPre (dataPre ++ d) = none := rfl
  simp only [processLine, h1, h2, stripPre_self_append, Option.isSome_none, Bool.false_eq_true,
    if_false]

/-- `event_stream` on `data:` lines of text deltas `ts` followed by a
`MessageStop` line is the buffer sequence of the source (api.rs lines
314–337): one incomplete text-increment buffer per delta, then the empty
complete buffer. -/
theorem eventStream_text_stop (parse : List Char → Except String StreamEvent)
    {datas : List (List Char)} {ts : List String}
    (h : List.Forall₂
      (fun d t => ∃ k, parse d = .ok (.contentBlockDelta k { delta_type := "text_delta", text := t }))
      datas ts)
    {stopData : List Char} (hs : parse stopData = .ok .messageStop) :
    eventStream parse ((datas.map (fun d => .ok (dataPre ++ d))) ++ [.ok (dataPre ++ stopData)])
      = ts.map (fun t => .ok ({ content := t, is_complete := false } : StreamingBuffer))
        ++ [.ok { content := "", is_complete := true }] := by
  induction h with
  | nil => simp [eventStream, processLine_data, hs]
  | cons hdt htail ih =>
    obtain ⟨k, hk⟩ := hdt
    simpa [eventStream, processLine_data, hk] using ih

/-- The task loop on incomplete text chunks followed by the completion
chunk pushes the running prefixes and then the final accumulated content. -/
theorem taskLoop_texts (ts : List String) : ∀ (acc : String) (u : Option ResponseUsage),
    taskLoop { content := acc, is_complete := false, usage := u }
        ((ts.map (fun t => (.ok { content := t, is_complete := false, usage := none } :
            Except String StreamChunk)))
          ++ [.ok { content := "", is_complete := true, usage := none }])
      = (runPre acc ts).map
          (fun p => ({ content := p, is_complete := false, usage := none } : AppMessageDelta))
        ++ [{ content := ts.foldl (fun a t => a ++ t) acc, is_complete := true, usage := none }] := by
  induction ts with
  | nil => intro acc u; simp [taskLoop, runPre, str_append_empty]
  | cons t ts ih =>
    intro acc u
    simp only [List.map_cons, List.cons_append, taskLoop, List.append_eq, List.foldl_cons, runPre]
    rw [if_neg (by simp), ih]

/-- While the pulled chunks are incomplete `Ok`s, every pushed delta is
incomplete. -/
theorem taskLoop_all_incomplete (pre : List (Except String StreamChunk)) :
    ∀ acc, pre.all okIncomplete = true →
      ∀ d ∈ taskLoop acc pre, d.is_complete = false := by
  induction pre with
  | nil => intro acc _ d hd; simp [taskLoop] at hd
  | cons c rest ih =>
    intro acc hall d hd
    simp only [List.all_cons, Bool.and_eq_true] at hall
    match c with
    | .error e => simp [okIncomplete] at hall
    | .ok b =>
      have hb : b.is_complete = false := by
        have := hall.1; simpa [okIncomplete] using this
      simp only [taskLoop, hb, Bool.false_eq_true, if_false] at hd
      rcases List.mem_cons.mp hd with h | h
      · rw [h]
      · exact ih _ hall.2 d h

/-- Hitting a line-read error after a run of incomplete chunks appends
exactly one sentinel-prefixed terminal delta and ignores the rest of the
sequence. -/
theorem taskLoop_error_after (e : String) (rest : List (Except String StreamChunk))
    (pre : List (Except String StreamChunk)) :
    ∀ acc, pre.all okIncomplete = true →
      ∃ u, taskLoop acc (pre ++ .error e :: rest)
        = taskLoop acc pre
          ++ [{ content := STREAM_ERROR_TOKEN ++ " " ++ e, is_complete := true, usage := u }] := by
  induction pre with
  | nil => intro acc _; exact ⟨acc.usage, by simp [taskLoop]⟩
  | cons c pre' ih =>
    intro acc hall
    simp only [List.all_cons, Bool.and_eq_true] at hall
    match c with
    | .error e' => simp [okIncomplete] at hall
    | .ok b =>
      have hb : b.is_complete = false := by
        have := hall.1; simpa [okIncomplete] using this
      obtain ⟨u, hu⟩ := ih
        { content := acc.content ++ b.content, is_complete := b.is_complete, usage := b.usage }
        hall.2
      refine ⟨u, ?_⟩
      rw [hb] at hu
      simp only [List.cons_append, taskLoop, hb, Bool.false_eq_true, if_false, List.append_eq]
      rw [hu]

/-- The task loop pushes at most one terminal delta, and exactly one when
the chunk sequence contains a terminal chunk. -/
theorem countComplete_taskLoop (chunks : List (Except String StreamChunk)) :
    ∀ acc, countComplete (taskLoop acc chunks) ≤ 1
      ∧ (chunks.any isTerminalChunk = true → countComplete (taskLoop acc chunks) = 1) := by
  induction chunks with
  | nil => intro acc; simp [taskLoop, countComplete]
  | cons c rest ih =>
    intro acc
    match c with
    | .error e => simp [taskLoop, countComplete, isTerminalChunk]
    | .ok b =>
      rcases hb : b.is_complete with _ | _
      · constructor
        · simpa [taskLoop, hb, countComplete] using (ih _).1
        · intro hterm
          simp only [List.any_cons, isTerminalChunk, hb, Bool.false_or] at hterm
          simpa [taskLoop, hb, countComplete] using (ih _).2 hterm
      · simp [taskLoop, hb, countComplete]

/-! ## Claims -/

/-- C1: for a streamed response whose `data:` lines are
`ContentBlockDelta` events with text increments `t1..tn` (delta type
`"text_delta"`) followed by `MessageStop`, the background task spawned by
`send_message` pushes onto the channel the deltas whose contents are the
running prefix concatenations `t1, t1++t2, …, t1++…++tn`, and the final
pushed delta carries the full concatenation with `is_complete = true`. -/
theorem c1_running_prefixes (parse : List Char → Except String StreamEvent)
    {datas : List (List Char)} {ts : List String}
    (h : List.Forall₂
      (fun d t => ∃ k, parse d = .ok (.contentBlockDelta k { delta_type := "text_delta", text := t }))
      datas ts)
    {stopData : List Char} (hs : parse stopData = .ok .messageStop) :
    pipeline parse ((datas.map (fun d => .ok (dataPre ++ d))) ++ [.ok (dataPre ++ stopData)])
      = (runPre "" ts).map
          (fun p => { content := p, is_complete := false, usage := none })
        ++ [{ content := ts.foldl (fun a t => a ++ t) "", is_complete := true, usage := none }] := by
  unfold pipeline
  rw [eventStream_text_stop parse h hs]
  simp only [List.map_append, List.map_map, List.map_cons, List.map_nil, Function.comp,
    Except.map, liftBuffer]
  exact taskLoop_texts ts "" none

/-- Witness for C1: the spec's own example `["Hel", "lo", " world"]`. -/
theorem c1_running_prefixes_w :
    pipeline demoParse
        [.ok (dataPre ++ "txt:Hel".toList), .ok (dataPre ++ "txt:lo".toList),
         .ok (dataPre ++ "txt: world".toList), .ok (dataPre ++ "stop".toList)]
      = [{ content := "Hel", is_complete := false, usage := none },
         { content := "Hello", is_complete := false, usage := none },
         { content := "Hello world", is_complete := false, usage := none },
         { content := "Hello world", is_complete := true, usage := none }] :=
  (@c1_running_prefixes demoParse
    ["txt:Hel".toList, "txt:lo".toList, "txt: world".toList] ["Hel", "lo", " world"]
    (List.Forall₂.cons ⟨0, by decide⟩
      (List.Forall₂.cons ⟨0, by decide⟩
        (List.Forall₂.cons ⟨0, by decide⟩ List.Forall₂.nil)))
    "stop".toList (by decide)).trans (by decide)

/-- C2 counterexample: a send whose stream carries one `data:` line with a
payload that fails to parse and then ends delivers no terminal delta at
all (the parse failure is silently skipped and nothing completes the
send), contradicting "exactly once … whether the stream ends in
MessageStop, a transport failure, or a parse failure". -/
theorem c2_cex_parse_failure_no_terminal :
    demoParse "bad".toList = .error "unknown event"
      ∧ countComplete (pipeline demoParse [.ok (dataPre ++ "bad".toList)]) = 0 := by decide

/-- C2 (amended): per send the background task delivers at most one
`is_complete = true` delta, and exactly one when the request fails or the
chunk sequence contains a terminal chunk (a line-read error or the
complete buffer `MessageStop` produces); a stream that ends without such a
chunk — e.g. after a silently-dropped parse failure — delivers none. -/
theorem c2_terminal_at_most_once (r : Except String (List (Except String StreamChunk))) :
    countComplete (spawnedTask r) ≤ 1
      ∧ (terminatesB r = true → countComplete (spawnedTask r) = 1) := by
  match r with
  | .error e => simp [spawnedTask, countComplete, terminatesB]
  | .ok chunks =>
    refine ⟨(countComplete_taskLoop chunks _).1, fun h => ?_⟩
    exact (countComplete_taskLoop chunks _).2 (by simpa [terminatesB] using h)

/-- Witness for C2 at a single complete chunk. -/
theorem c2_terminal_at_most_once_w :
    terminatesB (.ok [.ok { content := "a", is_complete := true, usage := none }]) = true
      ∧ countComplete
          (spawnedTask (.ok [.ok { content := "a", is_complete := true, usage := none }])) = 1 :=
  ⟨by decide,
    (c2_terminal_at_most_once (.ok [.ok { content := "a", is_complete := true, usage := none }])).2
      (by decide)⟩

/-- C3 counterexample: a `data:` line whose payload fails to parse yields
no element of the sequence at all — the failure is silently dropped, not
surfaced as an error element. -/
theorem c3_cex_parse_failure_dropped :
    demoParse "broken json".toList = .error "unknown event"
      ∧ eventStream demoParse [.ok (dataPre ++ "broken json".toList)] = [] := by decide

/-- C3 (amended): every line-read failure yields an error element of the
sequence, but a `data:` line whose JSON payload fails to parse into a
known `StreamEvent` yields no element (the `_ => None` arm): parse
failures are silently dropped, like unrecognized events. -/
theorem c3_line_errors_surface :
    (∀ (parse : List Char → Except String StreamEvent)
        (lines : List (Except String (List Char))) (e : String),
        .error e ∈ lines →
        .error ("Error reading stream line " ++ e) ∈ eventStream parse lines)
      ∧ (∀ (parse : List Char → Except String StreamEvent) (d : List Char) (err : String),
        parse d = .error err → processLine parse (.ok (dataPre ++ d)) = none) := by
  constructor
  · intro parse lines e h
    exact List.mem_filterMap.mpr ⟨.error e, h, rfl⟩
  · intro parse d err h
    rw [processLine_data, h]

/-- Witness for C3: a concrete line-read failure and a concrete
unparseable data line. -/
theorem c3_line_errors_surface_w :
    (Except.error "io" ∈ ([.error "io"] : List (Except String (List Char))))
      ∧ Except.error ("Error reading stream line " ++ "io")
          ∈ eventStream demoParse [.error "io"]
      ∧ processLine demoParse (.ok (dataPre ++ "bad".toList)) = none :=
  ⟨by decide, c3_line_errors_surface.1 demoParse [.error "io"] "io" (by decide),
    c3_line_errors_surface.2 demoParse "bad".toList "unknown event" (by decide)⟩

/-- C4: when `is_sending` is already true, `send_message` is a no-op —
the state (input, messages, is_sending, error, everything) is returned
unchanged and no background task is spawned. -/
theorem c4_send_noop_while_sending (goodKey : Bool) (s : AppState)
    (h : s.is_sending = true) :
    send_message goodKey s = (s, none) := by
  unfold send_message
  rw [h]
  simp

/-- Witness for C4 at a concrete in-flight state. -/
theorem c4_send_noop_while_sending_w :
    demoState.is_sending = true ∧ send_message true demoState = (demoState, none) :=
  ⟨rfl, c4_send_noop_while_sending true demoState rfl⟩

/-- C5: a request-level failure makes the task push exactly the one
sentinel-prefixed terminal delta; a failing element of the streaming
sequence (after incomplete chunks) makes the task push the previous
(incomplete) deltas, then exactly one delta whose content is the sentinel
followed by the error text with `is_complete = true`, and stop —
nothing after the error is processed.  The failure reaches the UI only as
this channel value. -/
theorem c5_error_terminal_delta :
    (∀ e, spawnedTask (.error e)
        = [{ content := STREAM_ERROR_TOKEN ++ " " ++ e, is_complete := true, usage := none }])
      ∧ (∀ (pre : List (Except String StreamChunk)) (e : String)
          (rest : List (Except String StreamChunk)),
          pre.all okIncomplete = true →
          (spawnedTask (.ok (pre ++ .error e :: rest))).map
              (fun d => (d.content, d.is_complete))
            = (spawnedTask (.ok pre)).map (fun d => (d.content, d.is_complete))
              ++ [(STREAM_ERROR_TOKEN ++ " " ++ e, true)]
          ∧ ∀ d ∈ spawnedTask (.ok pre), d.is_complete = false) := by
  refine ⟨fun e => rfl, fun pre e rest hall => ?_⟩
  obtain ⟨u, hu⟩ := taskLoop_error_after e rest pre default hall
  constructor
  · show (taskLoop default (pre ++ .error e :: rest)).map _ = (taskLoop default pre).map _ ++ _
    rw [hu]
    simp
  · exact taskLoop_all_incomplete pre default hall

/-- Witness for C5: one incomplete chunk, then an error, then an ignored
chunk. -/
theorem c5_error_terminal_delta_w :
    ([.ok { content := "Hel", is_complete := false, usage := none }]
        : List (Except String StreamChunk)).all okIncomplete = true
      ∧ (spawnedTask (.ok ([.ok { content := "Hel", is_complete := false, usage := none }]
            ++ .error "boom" :: [.ok { content := "x", is_complete := false, usage := none }]))).map
            (fun d => (d.content, d.is_complete))
          = (spawnedTask
                (.ok [.ok { content := "Hel", is_complete := false, usage := none }])).map
              (fun d => (d.content, d.is_complete))
            ++ [(STREAM_ERROR_TOKEN ++ " " ++ "boom", true)]
        ∧ ∀ d ∈ spawnedTask
            (.ok [.ok { content := "Hel", is_complete := false, usage := none }]),
            d.is_complete = false :=
  ⟨by decide,
    c5_error_terminal_delta.2
      [.ok { content := "Hel", is_complete := false, usage := none }] "boom"
      [.ok { content := "x", is_complete := false, usage := none }] (by decide)⟩

/-- C6 counterexample: a sentinel-prefixed (error) delta does *not*
replace the open assistant message's content — `handle_stream_response`
leaves the messages untouched and stores the content in the `error` field
instead (it does clear `is_sending`).  The claim demands the replacement
for *every* delta received from the channel, and error deltas arrive on
the same channel. -/
theorem c6_cex_sentinel_delta_not_written :
    (handle_stream_response demoState
        { content := STREAM_ERROR_TOKEN ++ " boom", is_complete := true, usage := none }).map
        (fun st => (st.messages, st.is_sending, st.error))
      = some ([{ role := Role.assistant, content := "x" }], false,
          some (STREAM_ERROR_TOKEN ++ " boom"))
      ∧ STREAM_ERROR_TOKEN ++ " boom" ≠ "x" := by decide

/-- C6 (amended): for a delta whose content does not start with the error
sentinel, when the last message of the conversation has role Assistant,
`handle_stream_response` replaces that message's content with the delta's
cumulative content; a sentinel-prefixed delta leaves the messages
unchanged and records the content in the `error` field; in both cases
`is_complete = true` clears `is_sending`.  (Stated for deltas without
usage, which is what the src streaming pipeline delivers; delivered usage
would additionally be added to the total cost.) -/
theorem c6_handle_stream_delta :
    (∀ (s : AppState) (d : AppMessageDelta) (m : Message),
        d.usage = none → startsWithStr STREAM_ERROR_TOKEN d.content = false →
        s.messages.getLast? = some m → m.role = Role.assistant →
        handle_stream_response s d
          = some { s with
              messages := s.messages.dropLast
                ++ [{ role := Role.assistant, content := d.content }]
              is_sending := if d.is_complete = true then false else s.is_sending })
      ∧ (∀ (s : AppState) (d : AppMessageDelta),
        d.usage = none → startsWithStr STREAM_ERROR_TOKEN d.content = true →
        handle_stream_response s d
          = some { s with
              error := some d.content
              is_sending := if d.is_complete = true then false else s.is_sending }) := by
  constructor
  · intro s d m hu hsw hm hr
    simp only [handle_stream_response, hu, hsw, hm, hr, Bool.false_eq_true, if_false,
      Option.map_some]
    rcases hc : d.is_complete with _ | _ <;> simp [hc]
  · intro s d hu hsw
    simp only [handle_stream_response, hu, hsw, if_true, Option.map_some]
    rcases hc : d.is_complete with _ | _ <;> simp [hc]

/-- Witness for C6: a normal completion delta against the demo state. -/
theorem c6_handle_stream_delta_w :
    ({ content := "Hello", is_complete := true, usage := none } : AppMessageDelta).usage = none
      ∧ startsWithStr STREAM_ERROR_TOKEN "Hello" = false
      ∧ demoState.messages.getLast? = some { role := Role.assistant, content := "x" }
      ∧ handle_stream_response demoState
          { content := "Hello", is_complete := true, usage := none }
        = some { demoState with
            messages := demoState.messages.dropLast
              ++ [{ role := Role.assistant, content := "Hello" }]
            is_sending := if true = true then false else demoState.is_sending } :=
  ⟨rfl, by decide, by decide,
    c6_handle_stream_delta.1 demoState
      { content := "Hello", is_complete := true, usage := none }
      { role := Role.assistant, content := "x" } rfl (by decide) (by decide) rfl⟩

/-- C7: the usage metadata never arrives through the streaming sequence.
The wire carries it on a `MessageDelta` event, but `event_stream` drops
that event in its `_ => None` arm and src's `StreamingBuffer` has no
`usage` field, so every delta the task pushes — the terminal one
included — carries `usage = none` and no cost is ever added.  (app.rs
itself reads `buffer.usage`, a field absent from src's api.rs, so the
crate as given does not even type-check: the protocol layer is the stale
slip.)  Concretely: a stream with a text delta, a usage-carrying
`message_delta`, and `message_stop` delivers only usage-free deltas. -/
theorem c7_usage_never_delivered :
    demoParse "mdusage".toList
        = .ok (.messageDelta { stop_reason := some "end_turn", stop_sequence := none }
            (some { input_tokens := 10, output_tokens := 20 }))
      ∧ pipeline demoParse
          [.ok (dataPre ++ "txt:Hi".toList), .ok (dataPre ++ "mdusage".toList),
           .ok (dataPre ++ "stop".toList)]
        = [{ content := "Hi", is_complete := false, usage := none },
           { content := "Hi", is_complete := true, usage := none }] := by decide

/-- C8 counterexample: a network error while *reading the body* of the
pricing response is a network failure of the fetch, yet
`fetch_model_pricing` returns `Err` (the `context(..)?`), which startup
unwraps — the application aborts instead of degrading to "no pricing
data". -/
theorem c8_cex_body_read_error_aborts :
    fetch_model_pricing (.bodyErr "connection reset") (some MODEL)
        = .ret (.error "Failed to extract text from response")
      ∧ appStartupPricing (.bodyErr "connection reset") = none := by decide

/-- C8 (amended): when the *initial GET request* fails with a network
error, `fetch_model_pricing` returns `Ok(None)` and the app starts with
`pricing_data = None`; and `send_message` neither reads nor writes the
pricing data, so its absence never blocks or gates sending.  (A network
error while reading the response body, by contrast, aborts startup — see
the counterexample — and a pricing-table parse failure panics inside the
fetch.) -/
theorem c8_pricing_degrade :
    (∀ e mn, fetch_model_pricing (.connectErr e) mn = .ret (.ok none))
      ∧ (∀ e, appStartupPricing (.connectErr e) = some none)
      ∧ (∀ (goodKey : Bool) (s : AppState) (pd : Option (List (String × ModelPricing))),
          send_message goodKey { s with pricing_data := pd }
            = ({ (send_message goodKey s).1 with pricing_data := pd },
                (send_message goodKey s).2)) := by
  refine ⟨fun e mn => rfl, fun e => rfl, fun goodKey s pd => ?_⟩
  simp only [send_message]
  split_ifs <;> rfl

/-- C9: `parse_token_limit` maps `"200k"` to `200000`, `"1M"` to
`1000000`, and `"unlimited"` to the sentinel maximum (`usize::MAX`). -/
theorem c9_parse_token_limit_values :
    parse_token_limit "200k" = some 200000
      ∧ parse_token_limit "1M" = some 1000000
      ∧ parse_token_limit "unlimited" = some USIZE_MAX := by
  refine ⟨?_, ?_, by decide⟩
  · have h : parse_token_limit "200k" = some (f64_as_usize (((200 : Nat) : ℚ) * 1000)) := rfl
    have h2 : ((200 : Nat) : ℚ) * 1000 = ((200000 : Nat) : ℚ) := by norm_num
    rw [h, h2]
    simp [f64_as_usize, USIZE_MAX, Int.floor_natCast]
  · have h : parse_token_limit "1M" = some (f64_as_usize (((1 : Nat) : ℚ) * 1000000)) := rfl
    have h2 : ((1 : Nat) : ℚ) * 1000000 = ((1000000 : Nat) : ℚ) := by norm_num
    rw [h, h2]
    simp [f64_as_usize, USIZE_MAX, Int.floor_natCast]

end ClauChat
